import Mathlib

/-!
Shallow embedding of the `pixoo` frame-buffer and transmission core
(`src/pixoo/__init__.py`), with theorems checking the specification's
claims about it.

Modelling conventions:
* Python integers are `ℤ` (arbitrary precision, as in Python); sizes and
  list lengths use `ℕ` where the source value is a count.
* The frame buffer (`Pixoo.__buffer`, a Python list of byte values) is a
  `List ℤ`.
* Python float arithmetic inside `draw_line` is modelled over `ℚ`; every
  concrete input evaluated in a theorem below only exercises interpolation
  points at which IEEE-754 double arithmetic is exact (or agrees with the
  rational value after rounding), so the evaluations match the source.
* Functions that only send remote commands are modelled by the list of
  command names they emit on the device command channel; a Python method
  that returns without calling `send_command` emits `[]`.
-/

namespace Pixoo

/-- Source `clamp(value, minimum=0, maximum=255)`. -/
def clamp (value : ℤ) (minimum : ℤ := 0) (maximum : ℤ := 255) : ℤ :=
  if value > maximum then maximum
  else if value < minimum then minimum
  else value

/-- Source `clamp_color(rgb)`: componentwise clamp to `[0, 255]`. -/
def clamp_color (rgb : ℤ × ℤ × ℤ) : ℤ × ℤ × ℤ :=
  (clamp rgb.1, clamp rgb.2.1, clamp rgb.2.2)

/-- Source `lerp(start, end, interpolant)` (float arithmetic modelled on `ℚ`). -/
def lerp (start stop : ℚ) (interpolant : ℚ) : ℚ :=
  start + interpolant * (stop - start)

/-- Source `lerp_location(xy1, xy2, interpolant)`: interpolates each axis. -/
def lerp_location (xy1 xy2 : ℤ × ℤ) (interpolant : ℚ) : ℚ × ℚ :=
  (lerp xy1.1 xy2.1 interpolant, lerp xy1.2 xy2.2 interpolant)

/-- Source `minimum_amount_of_steps(xy1, xy2)`: Chebyshev distance. -/
def minimum_amount_of_steps (xy1 xy2 : ℤ × ℤ) : ℤ :=
  max |xy1.1 - xy2.1| |xy1.2 - xy2.2|

/-- Floor of a rational, written with executable integer floor-division so
that it reduces on concrete inputs. -/
def ratFloor (q : ℚ) : ℤ := Int.fdiv q.num q.den

/-- Python `round`: round half to even (banker's rounding), on `ℚ`. -/
def pythonRound (q : ℚ) : ℤ :=
  let f := ratFloor q
  let r := q - (f : ℚ)
  if r < 1 / 2 then f
  else if 1 / 2 < r then f + 1
  else if f % 2 = 0 then f else f + 1

/-- Source `round_location(xy)`: rounds both axes with Python `round`. -/
def round_location (xy : ℚ × ℚ) : ℤ × ℤ :=
  (pythonRound xy.1, pythonRound xy.2)

/-- Set of pixels built by source `draw_line(start_xy, stop_xy, rgb)` before
they are written: the loop is `for step in range(amount_of_steps)`, so `step`
runs over `0, …, amount_of_steps - 1`, and the body guards
`amount_of_steps == 0` before dividing. -/
def draw_line_pixels (start_xy stop_xy : ℤ × ℤ) : Finset (ℤ × ℤ) :=
  let amount_of_steps := minimum_amount_of_steps start_xy stop_xy
  (Finset.range amount_of_steps.toNat).image (fun (step : ℕ) =>
    let interpolant : ℚ :=
      if amount_of_steps = 0 then 0 else (step : ℚ) / (amount_of_steps : ℚ)
    round_location (lerp_location start_xy stop_xy interpolant))

/-- Source `draw_pixel_at_index(index, rgb)` acting on a buffer: if the index
is outside `[0, pixel_count - 1]` (with `pixel_count = size * size`) it
returns without touching the buffer (printing a diagnostic at most);
otherwise it clamps the color and overwrites the three bytes starting at
`index * 3`.  Python raises `IndexError` if the buffer were shorter than
`3 * size^2`; under the length invariant the writes are always in bounds, and
`List.set` agrees with the Python assignments there. -/
def draw_pixel_at_index (size : ℕ) (buffer : List ℤ) (index : ℤ)
    (rgb : ℤ × ℤ × ℤ) : List ℤ :=
  if index < 0 ∨ index ≥ (size * size : ℕ) then buffer
  else
    let c := clamp_color rgb
    let i := index.toNat * 3
    ((buffer.set i c.1).set (i + 1) c.2.1).set (i + 2) c.2.2

/-- Source `draw_pixel(xy, rgb)` acting on a buffer: off-screen coordinates
return without touching the buffer; otherwise the pixel index is
`x + y * size` and the write is delegated to `draw_pixel_at_index`. -/
def draw_pixel (size : ℕ) (buffer : List ℤ) (xy : ℤ × ℤ)
    (rgb : ℤ × ℤ × ℤ) : List ℤ :=
  if xy.1 < 0 ∨ xy.1 ≥ (size : ℤ) ∨ xy.2 < 0 ∨ xy.2 ≥ (size : ℤ) then buffer
  else draw_pixel_at_index size buffer (xy.1 + xy.2 * size) rgb

/-- Source `fill(rgb)`: starts from an empty list and extends it with the
clamped color once per pixel (`for index in range(self.pixel_count)`). -/
def fill (size : ℕ) (rgb : ℤ × ℤ × ℤ) : List ℤ :=
  let c := clamp_color rgb
  (List.range (size * size)).flatMap (fun _ => [c.1, c.2.1, c.2.2])

/-- Python `range(a, b)` over integers, as the list `a, a+1, …, b-1`
(empty when `b ≤ a`). -/
def intRange (a b : ℤ) : List ℤ :=
  (List.range (b - a).toNat).map (fun i : ℕ => a + (i : ℤ))

/-- Coordinates visited by source `draw_filled_rectangle(top_left_xy,
bottom_right_xy, rgb)`: `for y in range(tl.y, br.y + 1): for x in
range(tl.x, br.x + 1)`, rows outside then columns inside. -/
def draw_filled_rectangle_coords (top_left_xy bottom_right_xy : ℤ × ℤ) :
    List (ℤ × ℤ) :=
  (intRange top_left_xy.2 (bottom_right_xy.2 + 1)).flatMap (fun y =>
    (intRange top_left_xy.1 (bottom_right_xy.1 + 1)).map (fun x => (x, y)))

/-- Source `draw_filled_rectangle` acting on a buffer: one `draw_pixel` per
visited coordinate, in visit order. -/
def draw_filled_rectangle (size : ℕ) (buffer : List ℤ)
    (top_left_xy bottom_right_xy : ℤ × ℤ) (rgb : ℤ × ℤ × ℤ) : List ℤ :=
  (draw_filled_rectangle_coords top_left_xy bottom_right_xy).foldl
    (fun b xy => draw_pixel size b xy rgb) buffer

/-- Observable effect emitted while sending a buffer: a remote
`Draw/ResetHttpGifId` command, a remote `Draw/SendHttpGif` command carrying
`pic_id`, or a `simulator.display(buffer, counter)` call carrying the frame
id. -/
inductive Effect : Type where
  | resetRemote : Effect
  | sendGif : ℤ → Effect
  | simulatorDisplay : ℤ → Effect
deriving DecidableEq, Repr

/-- Transmission-controller state of a `Pixoo` session: `__counter`,
`__refresh_counter_limit` (32 in the source), the
`refresh_connection_automatically` flag, the `simulated` flag and
`__buffers_send`. -/
structure PixooState : Type where
  counter : ℤ
  refresh_counter_limit : ℤ
  refresh_connection_automatically : Bool
  simulated : Bool
  buffers_send : ℤ
deriving DecidableEq, Repr

/-- Convenience constructor for a session state with `__buffers_send = 0`. -/
def mkState (counter refresh_counter_limit : ℤ) (auto simulated : Bool) :
    PixooState :=
  ⟨counter, refresh_counter_limit, auto, simulated, 0⟩

/-- Source `__reset_counter()`: in simulated mode it returns before sending
anything; otherwise it sends `Draw/ResetHttpGifId`. -/
def reset_counter_effects (simulated : Bool) : List Effect :=
  if simulated then [] else [Effect.resetRemote]

/-- Result of one source `__send_buffer()` call: the successor state, whether
`__reset_counter()` was invoked, and the effects emitted in order. -/
structure SendResult : Type where
  state : PixooState
  resetCalled : Bool
  effects : List Effect
deriving DecidableEq, Repr

/-- Source `__send_buffer()` (the body of `push()`): increments `__counter`;
if `refresh_connection_automatically` and the new counter reaches
`__refresh_counter_limit`, calls `__reset_counter()` and sets the local
counter to 1; then either forwards the buffer and counter to the simulator
(simulated mode) or sends `Draw/SendHttpGif` with `pic_id = __counter`;
either branch then increments `__buffers_send`. -/
def send_buffer (s : PixooState) : SendResult :=
  let c1 := s.counter + 1
  let tripped : Bool :=
    s.refresh_connection_automatically && decide (c1 ≥ s.refresh_counter_limit)
  let resetEffects := if tripped then reset_counter_effects s.simulated else []
  let c2 := if tripped then 1 else c1
  let frame := if s.simulated then Effect.simulatorDisplay c2 else Effect.sendGif c2
  ⟨⟨c2, s.refresh_counter_limit, s.refresh_connection_automatically,
    s.simulated, s.buffers_send + 1⟩,
   tripped, resetEffects ++ [frame]⟩

/-- Iterated `push()`: final state and total number of `__reset_counter()`
invocations across the `n` calls. -/
def pushes (s : PixooState) : ℕ → PixooState × ℕ
  | 0 => (s, 0)
  | n + 1 =>
    let r := send_buffer s
    let rest := pushes r.state n
    (rest.1, (if r.resetCalled then 1 else 0) + rest.2)

/-- Frame ids carried by the frame-bearing effects of a trace (the ids a
device or simulator actually receives). -/
def sentIds : List Effect → List ℤ
  | [] => []
  | Effect.resetRemote :: rest => sentIds rest
  | Effect.sendGif i :: rest => i :: sentIds rest
  | Effect.simulatorDisplay i :: rest => i :: sentIds rest

/-- Source `set_brightness(brightness)`: returns at once when simulated,
otherwise clamps to `[0, 100]` and sends `Channel/SetBrightness`. -/
def set_brightness_commands (simulated : Bool) (brightness : ℤ) : List String :=
  if simulated then []
  else
    let _b := clamp brightness 0 100
    ["Channel/SetBrightness"]

/-- Source `set_channel(channel)`: returns at once when simulated, otherwise
sends `Channel/SetIndex`. -/
def set_channel_commands (simulated : Bool) (channel : ℤ) : List String :=
  if simulated then [] else ["Channel/SetIndex"]

/-- Source `set_clock(clock_id)`: returns at once when simulated, otherwise
sends `Channel/SetClockSelectId`. -/
def set_clock_commands (simulated : Bool) (clock_id : ℤ) : List String :=
  if simulated then [] else ["Channel/SetClockSelectId"]

/-- Source `set_custom_page(index)`: sends `Channel/SetCustomPageIndex`
unconditionally — unlike all the other hardware-only methods, its body has
no `if self.simulated: return` guard. -/
def set_custom_page_commands (simulated : Bool) (index : ℤ) : List String :=
  ["Channel/SetCustomPageIndex"]

/-- Source `set_custom_channel(index)`: `set_custom_page(index)` then
`set_channel(3)`. -/
def set_custom_channel_commands (simulated : Bool) (index : ℤ) : List String :=
  set_custom_page_commands simulated index ++ set_channel_commands simulated 3

/-- Source `set_screen(on)`: returns at once when simulated, otherwise sends
`Channel/OnOffScreen`. -/
def set_screen_commands (simulated : Bool) (screen_on : Bool) : List String :=
  if simulated then [] else ["Channel/OnOffScreen"]

/-- Source `send_text(...)` (scrolling text): returns at once when simulated,
otherwise clamps the identifier and sends `Draw/SendText`. -/
def send_text_commands (simulated : Bool) (identifier : ℤ) : List String :=
  if simulated then []
  else
    let _i := clamp identifier 0 19
    ["Draw/SendText"]

/-- Source `set_visualizer(equalizer_position)`: returns at once when
simulated, otherwise sends `Channel/SetEqPosition`. -/
def set_visualizer_commands (simulated : Bool) (position : ℤ) : List String :=
  if simulated then [] else ["Channel/SetEqPosition"]

/-! ## Helper lemmas -/

theorem ratFloor_intCast (n : ℤ) : ratFloor (n : ℚ) = n := by
  simp [ratFloor, Rat.num_intCast, Rat.den_intCast, Int.fdiv_one]

theorem pythonRound_intCast (n : ℤ) : pythonRound (n : ℚ) = n := by
  simp [pythonRound, ratFloor_intCast]

theorem range_flatMap_const {α : Type} (l : List α) :
    ∀ n : ℕ, (List.range n).flatMap (fun _ => l) = (List.replicate n l).flatten
  | 0 => rfl
  | n + 1 => by
    rw [List.range_succ, List.replicate_succ', List.flatMap_append,
      List.flatten_append, range_flatMap_const l n]
    rfl

/-- Unfolding of `fill`: the loop appends the clamped triple once per pixel. -/
theorem fill_eq_replicate (size : ℕ) (rgb : ℤ × ℤ × ℤ) :
    fill size rgb = (List.replicate (size * size)
      [(clamp_color rgb).1, (clamp_color rgb).2.1, (clamp_color rgb).2.2]).flatten := by
  simp only [fill]
  exact range_flatMap_const _ _

/-- Length of a freshly filled buffer. -/
theorem fill_length (size : ℕ) (rgb : ℤ × ℤ × ℤ) :
    (fill size rgb).length = 3 * (size * size) := by
  rw [fill_eq_replicate, List.length_flatten, List.map_replicate,
    List.sum_replicate]
  simp [Nat.mul_comm]

/-- Evaluation of `draw_pixel` at an in-range coordinate: both guards pass
and the three bytes starting at `(x + y * size) * 3` are overwritten with the
clamped color. -/
theorem draw_pixel_in_range_eq (size : ℕ) (buffer : List ℤ) (x y : ℤ)
    (rgb : ℤ × ℤ × ℤ)
    (hx0 : 0 ≤ x) (hx1 : x ≤ (size : ℤ) - 1)
    (hy0 : 0 ≤ y) (hy1 : y ≤ (size : ℤ) - 1) :
    draw_pixel size buffer (x, y) rgb =
      ((buffer.set ((x + y * size).toNat * 3) (clamp rgb.1)).set
        ((x + y * size).toNat * 3 + 1) (clamp rgb.2.1)).set
        ((x + y * size).toNat * 3 + 2) (clamp rgb.2.2) := by
  have hs0 : (0 : ℤ) ≤ (size : ℤ) := Int.natCast_nonneg size
  have hidx0 : 0 ≤ x + y * size := by
    have := mul_nonneg hy0 hs0
    omega
  have hprod : y * (size : ℤ) ≤ ((size : ℤ) - 1) * size :=
    mul_le_mul_of_nonneg_right (by omega) hs0
  have hlt : x + y * (size : ℤ) < (size : ℤ) * size := by nlinarith [hprod]
  unfold draw_pixel
  rw [if_neg (by push_neg; exact ⟨hx0, by omega, hy0, by omega⟩)]
  unfold draw_pixel_at_index
  have hguard : ¬(x + y * (size : ℤ) < 0 ∨
      x + y * (size : ℤ) ≥ ((size * size : ℕ) : ℤ)) := by
    push_neg
    refine ⟨hidx0, ?_⟩
    push_cast
    omega
  rw [if_neg hguard]
  simp only [clamp_color]

theorem mem_intRange {a b x : ℤ} : x ∈ intRange a b ↔ a ≤ x ∧ x < b := by
  unfold intRange
  rw [List.mem_map]
  constructor
  · rintro ⟨i, hi, rfl⟩
    rw [List.mem_range] at hi
    omega
  · rintro ⟨h1, h2⟩
    exact ⟨(x - a).toNat, List.mem_range.mpr (by omega), by omega⟩

/-! ## Claim theorems -/

/-- C5: for every side `s ∈ {16, 32, 64}` and every color triple, `fill`
produces a buffer of length exactly `3 * s * s` that is `s * s` consecutive
repetitions of the clamped color triple (and, being total, raises no
error for any color input). -/
theorem fill_replicates_clamped_color (size : ℕ)
    (hsize : size = 16 ∨ size = 32 ∨ size = 64) (rgb : ℤ × ℤ × ℤ) :
    (fill size rgb).length = 3 * (size * size) ∧
    fill size rgb = (List.replicate (size * size)
      [(clamp_color rgb).1, (clamp_color rgb).2.1, (clamp_color rgb).2.2]).flatten :=
  ⟨fill_length size rgb, fill_eq_replicate size rgb⟩

/-- Witness for C5 at side 16 and the out-of-gamut color `(300, -5, 7)`. -/
theorem fill_replicates_clamped_color_witness :
    (fill 16 (300, -5, 7)).length = 3 * (16 * 16) ∧
    fill 16 (300, -5, 7) = (List.replicate (16 * 16) [255, 0, 7]).flatten := by
  have hc : clamp_color (300, -5, 7) = (255, 0, 7) := by decide
  have h := fill_replicates_clamped_color 16 (Or.inl rfl) (300, -5, 7)
  rw [hc] at h
  exact h

/-- C6: an out-of-range coordinate (`x < 0 ∨ x ≥ side ∨ y < 0 ∨ y ≥ side`)
or an out-of-range index (outside `[0, side^2 - 1]`) leaves the buffer
byte-for-byte unchanged, for every prior buffer state, and (the functions
being total) raises no error to the caller. -/
theorem out_of_range_draw_is_noop (size : ℕ) (buffer : List ℤ)
    (rgb : ℤ × ℤ × ℤ) (xy : ℤ × ℤ) (index : ℤ)
    (hxy : xy.1 < 0 ∨ xy.1 ≥ (size : ℤ) ∨ xy.2 < 0 ∨ xy.2 ≥ (size : ℤ))
    (hindex : index < 0 ∨ index ≥ ((size * size : ℕ) : ℤ)) :
    draw_pixel size buffer xy rgb = buffer ∧
    draw_pixel_at_index size buffer index rgb = buffer := by
  constructor
  · unfold draw_pixel
    exact if_pos hxy
  · unfold draw_pixel_at_index
    exact if_pos hindex

/-- Witness for C6: coordinate `(-1, 0)` and index `256` on a 16-pixel side. -/
theorem out_of_range_draw_is_noop_witness :
    draw_pixel 16 [1, 2, 3] (-1, 0) (9, 9, 9) = [1, 2, 3] ∧
    draw_pixel_at_index 16 [1, 2, 3] 256 (9, 9, 9) = [1, 2, 3] :=
  out_of_range_draw_is_noop 16 [1, 2, 3] (9, 9, 9) (-1, 0) 256
    (by decide) (by decide)

/-- C8: for every in-range coordinate (`0 ≤ x, y ≤ side - 1`), every color
and every prior buffer state, `draw_pixel (x, y)` produces exactly the same
buffer as `draw_pixel_at_index (x + y * side)`: the coordinate-to-index
formula round-trips. -/
theorem draw_pixel_eq_draw_pixel_at_index (size : ℕ) (buffer : List ℤ)
    (x y : ℤ) (rgb : ℤ × ℤ × ℤ)
    (hx0 : 0 ≤ x) (hx1 : x ≤ (size : ℤ) - 1)
    (hy0 : 0 ≤ y) (hy1 : y ≤ (size : ℤ) - 1) :
    draw_pixel size buffer (x, y) rgb =
      draw_pixel_at_index size buffer (x + y * size) rgb := by
  unfold draw_pixel
  rw [if_neg]
  push_neg
  refine ⟨hx0, by omega, hy0, by omega⟩

/-- Witness for C8 at `(3, 5)` on a 16-pixel side over a fresh black buffer. -/
theorem draw_pixel_eq_draw_pixel_at_index_witness :
    draw_pixel 16 (fill 16 (0, 0, 0)) (3, 5) (10, 20, 30) =
      draw_pixel_at_index 16 (fill 16 (0, 0, 0)) (3 + 5 * 16) (10, 20, 30) :=
  draw_pixel_eq_draw_pixel_at_index 16 (fill 16 (0, 0, 0)) 3 5 (10, 20, 30)
    (by decide) (by decide) (by decide) (by decide)

/-- C7: for every in-range coordinate and every integer color triple, the
three stored bytes are the componentwise clamp of the input to `[0, 255]`;
in particular the color `(-5, 300, 128)` is stored as `(0, 255, 128)`. -/
theorem draw_pixel_stores_clamped (size : ℕ) (buffer : List ℤ) (x y : ℤ)
    (rgb : ℤ × ℤ × ℤ)
    (hx0 : 0 ≤ x) (hx1 : x ≤ (size : ℤ) - 1)
    (hy0 : 0 ≤ y) (hy1 : y ≤ (size : ℤ) - 1)
    (hlen : buffer.length = 3 * (size * size)) :
    ((draw_pixel size buffer (x, y) rgb)[3 * (x + y * size).toNat]? =
        some (clamp rgb.1) ∧
      (draw_pixel size buffer (x, y) rgb)[3 * (x + y * size).toNat + 1]? =
        some (clamp rgb.2.1) ∧
      (draw_pixel size buffer (x, y) rgb)[3 * (x + y * size).toNat + 2]? =
        some (clamp rgb.2.2)) ∧
    clamp_color (-5, 300, 128) = (0, 255, 128) := by
  have hs0 : (0 : ℤ) ≤ (size : ℤ) := Int.natCast_nonneg size
  have hidx0 : 0 ≤ x + y * size := by
    have := mul_nonneg hy0 hs0
    omega
  have hprod : y * (size : ℤ) ≤ ((size : ℤ) - 1) * size :=
    mul_le_mul_of_nonneg_right (by omega) hs0
  have hlt : x + y * (size : ℤ) < (size : ℤ) * size := by nlinarith [hprod]
  have hnat : (x + y * (size : ℤ)).toNat < size * size := by
    rw [Int.toNat_lt hidx0]
    push_cast
    exact hlt
  have hb : (x + y * (size : ℤ)).toNat * 3 + 2 < buffer.length := by omega
  rw [draw_pixel_in_range_eq size buffer x y rgb hx0 hx1 hy0 hy1,
    Nat.mul_comm 3 ((x + y * (size : ℤ)).toNat)]
  refine ⟨⟨?_, ?_, ?_⟩, by decide⟩
  · rw [List.getElem?_set_ne (by omega), List.getElem?_set_ne (by omega),
      List.getElem?_set_self (by omega)]
  · rw [List.getElem?_set_ne (by omega),
      List.getElem?_set_self (by simp [List.length_set]; omega)]
  · rw [List.getElem?_set_self (by simp [List.length_set]; omega)]

/-- Witness for C7: `(-5, 300, 128)` written at `(2, 1)` of a fresh 16-side
buffer lands as bytes `0, 255, 128` at offsets `54, 55, 56`. -/
theorem draw_pixel_stores_clamped_witness :
    (draw_pixel 16 (fill 16 (0, 0, 0)) (2, 1) (-5, 300, 128))[54]? = some 0 ∧
    (draw_pixel 16 (fill 16 (0, 0, 0)) (2, 1) (-5, 300, 128))[55]? = some 255 ∧
    (draw_pixel 16 (fill 16 (0, 0, 0)) (2, 1) (-5, 300, 128))[56]? = some 128 := by
  have h := draw_pixel_stores_clamped 16 (fill 16 (0, 0, 0)) 2 1 (-5, 300, 128)
    (by decide) (by decide) (by decide) (by decide) (fill_length 16 (0, 0, 0))
  have e1 : 3 * ((2 : ℤ) + 1 * (16 : ℕ)).toNat = 54 := by decide
  have e2 : clamp (-5) = 0 := by decide
  have e3 : clamp 300 = 255 := by decide
  have e4 : clamp 128 = 128 := by decide
  rw [e1, e2, e3, e4] at h
  exact h.1

/-- C10: for every in-range coordinate, every color and every prior buffer
of the invariant length, `draw_pixel` keeps the buffer length and changes
nothing outside the three byte offsets `3 * (x + y * side)`,
`3 * (x + y * side) + 1` and `3 * (x + y * side) + 2`. -/
theorem draw_pixel_changes_only_three_bytes (size : ℕ) (buffer : List ℤ)
    (x y : ℤ) (rgb : ℤ × ℤ × ℤ)
    (hx0 : 0 ≤ x) (hx1 : x ≤ (size : ℤ) - 1)
    (hy0 : 0 ≤ y) (hy1 : y ≤ (size : ℤ) - 1)
    (hlen : buffer.length = 3 * (size * size)) :
    (draw_pixel size buffer (x, y) rgb).length = buffer.length ∧
    ∀ j : ℕ, j ≠ 3 * (x + y * size).toNat → j ≠ 3 * (x + y * size).toNat + 1 →
      j ≠ 3 * (x + y * size).toNat + 2 →
      (draw_pixel size buffer (x, y) rgb)[j]? = buffer[j]? := by
  rw [draw_pixel_in_range_eq size buffer x y rgb hx0 hx1 hy0 hy1]
  constructor
  · simp [List.length_set]
  · intro j h1 h2 h3
    rw [List.getElem?_set_ne (by omega), List.getElem?_set_ne (by omega),
      List.getElem?_set_ne (by omega)]

/-- C9: `draw_filled_rectangle` visits exactly the pixels of the inclusive
rectangle `[tl.x, br.x] × [tl.y, br.y]` (each handed to `draw_pixel`, which
does the write); with inverted corners the ranges are empty, so
`draw_filled_rectangle((2,2),(1,1))` visits zero pixels, leaves any buffer
unchanged and (being total) raises no error. -/
theorem draw_filled_rectangle_inclusive (top_left_xy bottom_right_xy : ℤ × ℤ)
    (x y : ℤ) :
    ((x, y) ∈ draw_filled_rectangle_coords top_left_xy bottom_right_xy ↔
      (top_left_xy.1 ≤ x ∧ x ≤ bottom_right_xy.1 ∧
       top_left_xy.2 ≤ y ∧ y ≤ bottom_right_xy.2)) ∧
    draw_filled_rectangle_coords (2, 2) (1, 1) = [] ∧
    (∀ (size : ℕ) (buffer : List ℤ) (rgb : ℤ × ℤ × ℤ),
      draw_filled_rectangle size buffer (2, 2) (1, 1) rgb = buffer) := by
  refine ⟨?_, rfl, fun _ _ _ => rfl⟩
  unfold draw_filled_rectangle_coords
  rw [List.mem_flatMap]
  constructor
  · rintro ⟨b, hb, hmem⟩
    rw [List.mem_map] at hmem
    obtain ⟨a, ha, heq⟩ := hmem
    rw [mem_intRange] at hb ha
    cases heq
    exact ⟨ha.1, by omega, hb.1, by omega⟩
  · rintro ⟨h1, h2, h3, h4⟩
    refine ⟨y, mem_intRange.mpr ⟨h3, by omega⟩, ?_⟩
    rw [List.mem_map]
    exact ⟨x, mem_intRange.mpr ⟨h1, by omega⟩, rfl⟩

/-- Witness for C10: writing at `(2, 1)` of a fresh 16-side buffer keeps the
length and leaves byte 10 untouched. -/
theorem draw_pixel_changes_only_three_bytes_witness :
    (draw_pixel 16 (fill 16 (0, 0, 0)) (2, 1) (9, 9, 9)).length =
      (fill 16 (0, 0, 0)).length ∧
    (draw_pixel 16 (fill 16 (0, 0, 0)) (2, 1) (9, 9, 9))[10]? =
      (fill 16 (0, 0, 0))[10]? := by
  have h := draw_pixel_changes_only_three_bytes 16 (fill 16 (0, 0, 0)) 2 1
    (9, 9, 9) (by decide) (by decide) (by decide) (by decide)
    (fill_length 16 (0, 0, 0))
  exact ⟨h.1, h.2 10 (by decide) (by decide) (by decide)⟩

/-- Evaluation of one `__send_buffer()` when the incremented counter reaches
the limit: the counter is reset to 1 and `__reset_counter()` was invoked. -/
theorem send_buffer_tripped (s : PixooState)
    (hauto : s.refresh_connection_automatically = true)
    (h : s.refresh_counter_limit ≤ s.counter + 1) :
    (send_buffer s).state = ⟨1, s.refresh_counter_limit, true, s.simulated,
      s.buffers_send + 1⟩ ∧ (send_buffer s).resetCalled = true := by
  simp only [send_buffer, hauto, Bool.true_and, ge_iff_le]
  constructor
  · simp [decide_eq_true h]
  · simp [decide_eq_true h]

/-- While every incremented counter stays strictly below the limit, pushes
increment the counter one by one and never invoke `__reset_counter()`. -/
theorem pushes_below_limit (n : ℕ) :
    ∀ s : PixooState, s.refresh_connection_automatically = true →
      s.counter + n < s.refresh_counter_limit →
      (pushes s n).1.counter = s.counter + n ∧ (pushes s n).2 = 0 := by
  induction n with
  | zero => intro s _ _; simp [pushes]
  | succ n ih =>
    intro s hauto hlt
    have hnot : ¬ (s.counter + 1 ≥ s.refresh_counter_limit) := by
      push_cast at hlt
      omega
    have hr : send_buffer s =
        ⟨⟨s.counter + 1, s.refresh_counter_limit, true, s.simulated,
          s.buffers_send + 1⟩, false, [if s.simulated then
            Effect.simulatorDisplay (s.counter + 1) else
            Effect.sendGif (s.counter + 1)]⟩ := by
      simp only [send_buffer, hauto, Bool.true_and]
      rw [if_neg (by simpa using hnot), if_neg (by simpa using hnot)]
      simp [decide_eq_false hnot]
    have := ih ⟨s.counter + 1, s.refresh_counter_limit, true, s.simulated,
        s.buffers_send + 1⟩ rfl (by push_cast at hlt ⊢; omega)
    simp only [pushes, hr] at *
    refine ⟨by rw [this.1]; push_cast; ring, by simp [this.2]⟩

/-- C2: every push increments the counter; when `auto_refresh` is enabled
and the incremented counter reaches the threshold, `__reset_counter()` is
invoked (in device mode the remote `Draw/ResetHttpGifId` command precedes
the frame on the wire) and the local counter is set to 1 before the frame
goes out, so the tripping frame is sent under id 1 and no frame id at or
above the threshold ever reaches the device or the simulator. -/
theorem send_buffer_push_policy (s : PixooState)
    (hauto : s.refresh_connection_automatically = true)
    (hlim : 2 ≤ s.refresh_counter_limit) :
    ((send_buffer s).resetCalled = true ↔
        s.refresh_counter_limit ≤ s.counter + 1) ∧
    ((send_buffer s).state.counter =
        if s.refresh_counter_limit ≤ s.counter + 1 then 1 else s.counter + 1) ∧
    (s.refresh_counter_limit ≤ s.counter + 1 →
      (s.simulated = false →
        (send_buffer s).effects = [Effect.resetRemote, Effect.sendGif 1]) ∧
      (s.simulated = true →
        (send_buffer s).effects = [Effect.simulatorDisplay 1])) ∧
    (∀ i ∈ sentIds (send_buffer s).effects, i < s.refresh_counter_limit) := by
  simp only [send_buffer, hauto, Bool.true_and, ge_iff_le]
  by_cases h : s.refresh_counter_limit ≤ s.counter + 1 <;>
    cases hs : s.simulated <;>
      simp [h, hs, sentIds, reset_counter_effects] <;> omega

/-- Witness for C2: counter 31 at the default threshold 32 in device mode
trips the reset, and the tripping frame goes out as `Draw/SendHttpGif` with
`pic_id = 1`, after the remote reset and below the threshold. -/
theorem send_buffer_push_policy_witness :
    (send_buffer (mkState 31 32 true false)).resetCalled = true ∧
    (send_buffer (mkState 31 32 true false)).effects =
      [Effect.resetRemote, Effect.sendGif 1] ∧
    (1 : ℤ) < (mkState 31 32 true false).refresh_counter_limit := by
  have h := send_buffer_push_policy (mkState 31 32 true false) rfl (by decide)
  refine ⟨h.1.mpr (by decide), (h.2.2.1 (by decide)).1 rfl, ?_⟩
  exact h.2.2.2 1 (by decide)

/-- C3 (amended): with `auto_refresh` enabled, starting strictly below the
threshold and pushing `N ≥ 1` times increments the counter to `start + N`
with no reset *provided `start + N` is still strictly below the threshold*;
starting at or above the threshold, the next push invokes exactly one reset
and leaves the counter at 1, and `k` further pushes (while `1 + k` stays
below the threshold) resume normal incrementing with no further reset. -/
theorem counter_policy (start limit : ℤ) (simulated : Bool) (N k : ℕ)
    (hlim : 2 ≤ limit) (hN : 1 ≤ N) :
    (start + N < limit →
      (pushes (mkState start limit true simulated) N).1.counter = start + N ∧
      (pushes (mkState start limit true simulated) N).2 = 0) ∧
    (limit ≤ start →
      ((pushes (mkState start limit true simulated) 1).1.counter = 1 ∧
       (pushes (mkState start limit true simulated) 1).2 = 1) ∧
      (1 + (k : ℤ) < limit →
        (pushes (mkState start limit true simulated) (1 + k)).1.counter = 1 + k ∧
        (pushes (mkState start limit true simulated) (1 + k)).2 = 1)) := by
  constructor
  · intro h
    exact pushes_below_limit N (mkState start limit true simulated) rfl h
  · intro h
    have htrip := send_buffer_tripped (mkState start limit true simulated) rfl
      (by simp [mkState]; omega)
    constructor
    · simp only [pushes, htrip.1, htrip.2]
      simp [pushes]
    · intro hk
      have hstate := htrip.1
      have hauto2 : (send_buffer (mkState start limit true
          simulated)).state.refresh_connection_automatically = true := by
        rw [hstate]
      have hcnt : (send_buffer (mkState start limit true
          simulated)).state.counter = 1 := by
        rw [hstate]
      have hlim2 : (send_buffer (mkState start limit true
          simulated)).state.refresh_counter_limit = limit := by
        rw [hstate]
        rfl
      have hrest := pushes_below_limit k _ hauto2
        (by rw [hcnt, hlim2]; exact hk)
      rw [Nat.add_comm 1 k]
      simp only [pushes]
      refine ⟨?_, ?_⟩
      · rw [hrest.1, hcnt]
      · rw [htrip.2]
        simp [hrest.2]

/-- Counterexample to C3 as stated: the starting counter 31 is strictly
below the threshold 32 and `N = 1 ≥ 1`, yet the push resets (one reset,
counter 1), not `counter = 32` with no reset. -/
theorem counter_policy_counterexample :
    (pushes (mkState 31 32 true false) 1).1.counter = 1 ∧
    (pushes (mkState 31 32 true false) 1).2 = 1 ∧
    ¬((pushes (mkState 31 32 true false) 1).1.counter = 31 + 1 ∧
      (pushes (mkState 31 32 true false) 1).2 = 0) := by
  decide

/-- Witness for C3 (amended): three pushes from 5 reach 8 with no reset;
from 40 (≥ 32) one push resets once to 1, and 4 further pushes reach 5 with
no further reset. -/
theorem counter_policy_witness :
    ((pushes (mkState 5 32 true false) 3).1.counter = 8 ∧
     (pushes (mkState 5 32 true false) 3).2 = 0) ∧
    ((pushes (mkState 40 32 true false) 1).1.counter = 1 ∧
     (pushes (mkState 40 32 true false) 1).2 = 1) ∧
    ((pushes (mkState 40 32 true false) (1 + 4)).1.counter = 5 ∧
     (pushes (mkState 40 32 true false) (1 + 4)).2 = 1) := by
  have h1 := counter_policy 5 32 false 3 4 (by decide) (by decide)
  have h2 := counter_policy 40 32 false 1 4 (by decide) (by decide)
  have ha := h1.1 (by decide)
  have hb := (h2.2 (by decide)).1
  have hc := (h2.2 (by decide)).2 (by decide)
  refine ⟨⟨?_, ha.2⟩, hb, ⟨?_, hc.2⟩⟩
  · rw [ha.1]
    decide
  · rw [hc.1]
    decide

/-- C1 (evaluation at the failing inputs): because the source loop is
`for step in range(amount_of_steps)` — not `range(amount_of_steps + 1)`,
although the dead `if amount_of_steps == 0` guard inside the body only makes
sense for the inclusive loop — the interpolant `t = steps/steps = 1` is never
reached.  Hence `draw_line(p, p, c)` collects zero pixels instead of the one
pixel the claim (and spec) require, and `draw_line((0,0),(3,0),c)` collects
only `(0,0), (1,0), (2,0)`, missing the endpoint `(3,0)`.  At these inputs
every interpolation is exact, so the `ℚ` model agrees with Python's float
arithmetic. -/
theorem draw_line_misses_last_step :
    draw_line_pixels (0, 0) (0, 0) = ∅ ∧
    draw_line_pixels (0, 0) (3, 0) = {(0, 0), (1, 0), (2, 0)} := by
  constructor
  · simp [draw_line_pixels, minimum_amount_of_steps]
  · have hsteps : minimum_amount_of_steps (0, 0) (3, 0) = 3 := by
      simp [minimum_amount_of_steps]
    have hpix : ∀ step : ℕ,
        round_location (lerp_location (0, 0) (3, 0) ((step : ℚ) / 3)) =
          ((step : ℤ), 0) := by
      intro step
      have h1 : lerp (((0 : ℤ)) : ℚ) (((3 : ℤ)) : ℚ) ((step : ℚ) / 3) =
          (((step : ℤ) : ℚ)) := by
        simp [lerp]
      have h2 : lerp (((0 : ℤ)) : ℚ) (((0 : ℤ)) : ℚ) ((step : ℚ) / 3) =
          (((0 : ℤ) : ℚ)) := by
        simp [lerp]
      simp only [round_location, lerp_location]
      exact Prod.ext (by rw [h1, pythonRound_intCast])
        (by rw [h2, pythonRound_intCast])
    have hrange : Finset.range (Int.toNat 3) = ({0, 1, 2} : Finset ℕ) := by
      decide
    have g0 := hpix 0
    have g1 := hpix 1
    have g2 := hpix 2
    norm_num at g0 g1 g2
    unfold draw_line_pixels
    rw [hsteps]
    norm_num
    rw [hrange]
    rw [Finset.image_insert, Finset.image_insert, Finset.image_singleton]
    norm_num [g0, g1, g2]

/-- C4 (evaluation at the failing input): in simulated mode
`set_custom_page` still sends `Channel/SetCustomPageIndex` to the device
command channel (its body lacks the `if self.simulated: return` guard all
its hardware-only siblings carry), while brightness, channel, clock, screen
on/off, scrolling text and visualizer calls send nothing. -/
theorem simulated_mode_hardware_commands :
    set_custom_page_commands true 0 = ["Channel/SetCustomPageIndex"] ∧
    set_custom_channel_commands true 0 = ["Channel/SetCustomPageIndex"] ∧
    set_brightness_commands true 50 = [] ∧
    set_channel_commands true 1 = [] ∧
    set_clock_commands true 1 = [] ∧
    set_screen_commands true true = [] ∧
    set_screen_commands true false = [] ∧
    send_text_commands true 1 = [] ∧
    set_visualizer_commands true 0 = [] :=
  ⟨rfl, rfl, rfl, rfl, rfl, rfl, rfl, rfl, rfl⟩

end Pixoo
